import Mathlib

/-!
Verification of the video ingestion pipeline of the
`learn-file-storage-s3-golang-starter` repository.

The repository contains two variants of the upload handler:

* `handler_upload_video.go` (variant A): direct S3 URL locator, no remux step,
  and no `return` after the aspect-probe error response;
* the variant in `part_000` (variant B): fast-start remux, composite
  `"bucket,key"` locator, presigned playback URL.

Both variants are embedded below: `handlerUploadVideo` is variant B (the
variant the specification assumes), `handlerUploadVideoNoRemux` is variant A.

Modelling conventions:
* External effects (bearer-token check, JWT validation, database lookup,
  multipart form parsing, ffprobe, ffmpeg, S3 put, database update, S3
  presign) are supplied as an environment record describing each call's
  outcome; the handler is a pure function of that environment.
* Go's `float64` arithmetic in the aspect classifier is modelled as exact
  rational arithmetic (`ℚ`); `math.Abs` is `qabs`.
* A Go runtime panic (integer division by zero) is modelled as `Option.none`
  respectively an `Outcome` with `panicked := true`.
* Go's `strings.Split` with a one-character separator is `splitOnChar`;
  Go's `%` and `/` on `int` are `Int.tmod` and `Int.tdiv`.
* `mime.ParseMediaType` is modelled by `parseMediaTypeBase`: the portion
  before the first `;` is lower-cased (ASCII), trimmed and checked to be a
  `token "/" token` form exactly as Go's `checkMediaTypeDisposition` does.
  Go additionally validates the parameter section and rejects malformed
  parameters, so the acceptance modelled here is a superset of Go's; every
  universally quantified theorem below therefore also covers Go's set, and
  the concrete inputs used in counterexamples ("video/mp4", "video/mp4;v=1")
  are accepted by both.
-/

namespace Tubely

/-! ### Strings: Go `strings.Split` with a one-character separator -/

/-- Splitting a character list at every occurrence of `c`.  Mirrors Go's
`strings.Split(s, sep)` for a one-character separator `sep`: the result is
never empty, and no returned part contains the separator. -/
def splitOnChar (c : Char) : List Char → List (List Char)
  | [] => [[]]
  | x :: xs =>
    let r := splitOnChar c xs
    if x = c then [] :: r
    else
      match r with
      | [] => [[x]]
      | p :: ps => (x :: p) :: ps

/-- Go `strings.Split(s, sep)` for a one-character separator, on `String`. -/
def strSplitOn (c : Char) (s : String) : List String :=
  (splitOnChar c s.data).map fun l => ⟨l⟩

/-- Go source `mimeToExt` (part_001): `parts := strings.Split(mimeType, "/");
return parts[len(parts)-1]`. -/
def mimeToExt (mimeType : String) : String :=
  ⟨(splitOnChar '/' mimeType.data).getLastD []⟩

/-! ### Go `mime.ParseMediaType`: the base media-type check -/

/-- Go `mime` package tspecials: characters excluded from tokens. -/
def tspecialChars : List Char :=
  ['(', ')', '<', '>', '@', ',', ';', ':', '\\', '\"', '/', '[', ']', '?', '=']

/-- Go `mime.isTokenChar`: printable ASCII that is not a tspecial. -/
def isTokenChar (c : Char) : Bool :=
  0x20 < c.toNat && c.toNat < 0x7f && !(tspecialChars.contains c)

/-- A non-empty run of token characters (Go `mime.isToken`). -/
def isMimeTokenL (l : List Char) : Bool :=
  !(l.isEmpty) && l.all isTokenChar

/-- Go `mime.checkMediaTypeDisposition` on the lower-cased, trimmed base:
either a bare token, or `token "/" token` with nothing following. -/
def checkMediaTypeDispositionL (l : List Char) : Bool :=
  match splitOnChar '/' l with
  | [t] => isMimeTokenL t
  | [t, sub] => isMimeTokenL t && isMimeTokenL sub
  | _ => false

/-- ASCII lower-casing of one character (Go `strings.ToLower`, restricted to
ASCII, which covers every accepted media type). -/
def lowerChar (c : Char) : Char :=
  if 'A' ≤ c && c ≤ 'Z' then Char.ofNat (c.toNat + 32) else c

/-- ASCII whitespace (the relevant subset of Go `unicode.IsSpace`). -/
def isSpaceChar (c : Char) : Bool :=
  c == ' ' || c == '\t' || c == '\n' || c == '\r'

/-- Go `strings.TrimSpace` on a character list. -/
def trimChars (l : List Char) : List Char :=
  ((l.dropWhile isSpaceChar).reverse.dropWhile isSpaceChar).reverse

/-- Go `mime.ParseMediaType`, restricted to the returned media type: the part
of the input before the first `;`, lower-cased and trimmed, checked with
`checkMediaTypeDisposition`; `none` models a parse error.  (Parameter-section
validation is omitted; see the module comment.) -/
def parseMediaTypeBase (v : String) : Option String :=
  let base := trimChars (((splitOnChar ';' v.data).headD v.data).map lowerChar)
  if checkMediaTypeDispositionL base then some ⟨base⟩ else none

/-- Go source `mimeCheckVideo`: `mime.ParseMediaType` must succeed and the
canonical media type must be exactly `video/mp4`. -/
def mimeCheckVideo (mimeType : String) : Bool :=
  match parseMediaTypeBase mimeType with
  | none => false
  | some m => m == "video/mp4"

/-! ### Aspect-ratio classification (Go source `getVideoAspectRatio`) -/

/-- Go `math.Abs`, on exact rationals. -/
def qabs (q : ℚ) : ℚ := if q < 0 then -q else q

/-- The Go gcd loop `for b != 0 { a, b = b, a%b }` on `int` values
(`%` is Go's truncated remainder, i.e. `Int.tmod`). -/
def gcdLoop (a b : Int) : Int :=
  if h : b = 0 then a
  else gcdLoop b (a.tmod b)
termination_by b.natAbs
decreasing_by
  have habs : (a.tmod b).natAbs = a.natAbs % b.natAbs := by
    cases a <;> cases b <;> simp only [Int.tmod, Int.natAbs_neg] <;> rfl
  rw [habs]
  exact Nat.mod_lt _ (Int.natAbs_pos.mpr h)

/-- The classification body of Go `getVideoAspectRatio` for the first
stream's `(width, height)`: `ratio = w/h` (float division modelled on `ℚ`),
tolerance `0.02`; the fallback computes the gcd by `gcdLoop` and divides both
sides by it with Go's truncated `int` division.  `none` models the Go runtime
panic `integer divide by zero` that occurs when the gcd is `0`
(i.e. `w = h = 0`). -/
def classifyAspect (w h : Int) : Option String :=
  let r : ℚ := (w : ℚ) / (h : ℚ)
  if qabs (r - 16/9) < 2/100 then some "16:9"
  else if qabs (r - 9/16) < 2/100 then some "9:16"
  else
    let g := gcdLoop w h
    if g = 0 then none
    else some (toString (w.tdiv g) ++ ":" ++ toString (h.tdiv g))

/-- Outcome of Go `getVideoAspectRatio`: ffprobe/unmarshal failure, runtime
panic, or a classification string. -/
inductive AspectOut where
  | fail
  | panicked
  | ok (s : String)
deriving DecidableEq

/-- Go source `getVideoAspectRatio`: `probe` is the outcome of running
ffprobe and unmarshalling its JSON (`none` = non-zero exit or unmarshal
error, `some streams` = the parsed stream list).  With no stream the result
string stays empty; otherwise the first stream is classified. -/
def getVideoAspect (probe : Option (List (Int × Int))) : AspectOut :=
  match probe with
  | none => .fail
  | some [] => .ok ""
  | some ((w, h) :: _) =>
    match classifyAspect w h with
    | none => .panicked
    | some s => .ok s

/-- Storage-key derivation from the upload handler: Go
`switch aspectRatio { case "16:9": ... case "9:16": ... default: ... }`
with `fmt.Sprintf("landscape/%s.%s", randFileName, mimeToExt(mediaType))`
and analogously for the other two branches. -/
def fileKeyFor (aspect randName mediaType : String) : String :=
  match aspect with
  | "16:9" => "landscape/" ++ randName ++ "." ++ mimeToExt mediaType
  | "9:16" => "portrait/" ++ randName ++ "." ++ mimeToExt mediaType
  | _ => "other/" ++ randName ++ "." ++ mimeToExt mediaType

/-! ### Remux step (Go source `processVideoForFastStart`) -/

/-- Outcomes of the external calls made by `processVideoForFastStart`:
whether `cmd.Run()` returned nil, whether `os.Stat(workFile)` succeeds, and
the stat size. -/
structure RemuxEnv where
  runOk : Bool
  outExists : Bool
  outSize : Nat
deriving DecidableEq

/-- Result of `processVideoForFastStart` plus whether the work file still
exists on disk after the call returns. -/
structure RemuxResult where
  res : Except String String
  fileRemains : Bool

/-- Go source `processVideoForFastStart`: work path is `filePath +
".processing"`; on `cmd.Run()` error the work file is removed and an error
returned; on missing output an error is returned; on zero-size output the
work file is removed and an error returned; otherwise the work path is
returned and the file is left in place for the caller. -/
def processVideoForFastStart (filePath : String) (env : RemuxEnv) : RemuxResult :=
  let workFile := filePath ++ ".processing"
  if !env.runOk then
    { res := .error "ffmpeg faststart failed", fileRemains := false }
  else if !env.outExists then
    { res := .error "ffmpeg produced no output file", fileRemains := false }
  else if env.outSize == 0 then
    { res := .error "ffmpeg output file is empty", fileRemains := false }
  else
    { res := .ok workFile, fileRemains := true }

/-! ### Presigned playback URL (Go sources `generatePresignedURL` and
`dbVideoToSignedVideo`) -/

/-- One S3 presign request as issued by `generatePresignedURL`: bucket, key
and the expiry passed via `s3.WithPresignExpires`. -/
structure PresignRequest where
  bucket : String
  key : String
  expireMinutes : Nat
deriving DecidableEq

/-- Go source `generatePresignedURL`: issues exactly one presign request for
the given bucket, key and expiry; the external S3 presign client is the
function argument `sign`. -/
def generatePresignedURL (sign : PresignRequest → Except String String)
    (bucket key : String) (expireMinutes : Nat) : Except String String :=
  sign { bucket := bucket, key := key, expireMinutes := expireMinutes }

/-- The fields of `database.Video` relevant to the pipeline: owner principal,
locator field and updated-at timestamp. -/
structure Video where
  userID : String
  videoURL : Option String
  updatedAt : Nat
deriving DecidableEq

/-- Go's zero value `database.Video{}`, the value `cfg.db.GetVideo` yields
together with a lookup error. -/
def zeroVideo : Video := { userID := "", videoURL := none, updatedAt := 0 }

/-- Go source `dbVideoToSignedVideo`: nil locator is an error; the locator
must split on `","` into exactly two parts (bucket, key); the expiry is the
design constant 15 minutes; on success only the returned copy's `VideoURL`
is replaced, nothing is written back to the store. -/
def dbVideoToSignedVideo (sign : PresignRequest → Except String String)
    (video : Video) : Except String Video :=
  match video.videoURL with
  | none => .error "video URL is nil"
  | some url =>
    match strSplitOn ',' url with
    | [bucket, key] =>
      match generatePresignedURL sign bucket key 15 with
      | .error e => .error e
      | .ok presignedURL => .ok { video with videoURL := some presignedURL }
    | _ => .error "invalid video URL format"

/-! ### The upload handler -/

/-- Outcomes of every external call the upload handler makes, in source
order.  `none` in an `Option` field models the corresponding Go error. -/
structure UploadEnv where
  /-- `auth.GetBearerToken` succeeded. -/
  tokenOk : Bool
  /-- `auth.ValidateJWT`: the authenticated user id, or `none` on error. -/
  jwtUserID : Option String
  /-- `cfg.db.GetVideo`: the record, or `none` on a lookup error
  (in which case the Go variable `video` holds the zero value). -/
  dbVideo : Option Video
  /-- `r.FormFile("video")` succeeded. -/
  formFileOk : Bool
  /-- The declared `Content-Type` of the multipart part. -/
  mediaType : String
  /-- ffprobe outcome, as in `getVideoAspect`. -/
  probeStreams : Option (List (Int × Int))
  /-- The base64url encoding of the 32 random key bytes. -/
  randName : String
  /-- The staged temporary file's name from `os.CreateTemp`. -/
  tempName : String
  /-- ffmpeg/stat outcomes for `processVideoForFastStart`. -/
  remux : RemuxEnv
  /-- `os.Open(fsVideo)` succeeded. -/
  openOk : Bool
  /-- `cfg.s3Client.PutObject` succeeded. -/
  putOk : Bool
  /-- `cfg.db.UpdateVideo` succeeded. -/
  updateOk : Bool
  /-- The S3 presign client. -/
  sign : PresignRequest → Except String String
  /-- `cfg.s3Bucket`. -/
  bucket : String
  /-- `cfg.s3Region`. -/
  region : String
  /-- `time.Now()` as observed by the handler. -/
  now : Nat

/-- Observable result of one handler run: the first HTTP status written, a
panic flag, and which side effects happened (temp file creation/removal, S3
put with its key, metadata update with its argument, and whether the remuxed
file is still on disk when the request completes). -/
structure Outcome where
  status : Nat
  panicked : Bool
  tempCreated : Bool
  tempRemoved : Bool
  putCalled : Bool
  putKey : Option String
  updateCalled : Bool
  updateArg : Option Video
  remuxFileRemains : Bool

/-- Outcome of an exit taken before the temporary file exists. -/
def noEffects (st : Nat) : Outcome :=
  { status := st, panicked := false, tempCreated := false, tempRemoved := false,
    putCalled := false, putKey := none, updateCalled := false, updateArg := none,
    remuxFileRemains := false }

/-- Outcome of an exit taken after `os.CreateTemp`: the deferred
`os.Remove(tempFile.Name())` runs on every such exit. -/
def withTemp (st : Nat) : Outcome :=
  { noEffects st with tempCreated := true, tempRemoved := true }

/-- Variant B upload handler (`handlerUploadVideo` in part_000): bearer
token, JWT, `GetVideo` (note: the owner comparison precedes the error
check, exactly as in the source), `FormFile`, media-type check, staged temp
file with deferred removal, aspect probe (early return on error), key
derivation, fast-start remux, `os.Open`, S3 put, composite `"bucket,key"`
locator written via `UpdateVideo`, and finally `dbVideoToSignedVideo`
(whose error response lacks a `return`, so the first written status is 500
but the handler still falls through to `respondWithJSON`).
The handler never removes the remuxed work file. -/
def handlerUploadVideo (env : UploadEnv) : Outcome :=
  if !env.tokenOk then noEffects 401
  else
    match env.jwtUserID with
    | none => noEffects 401
    | some userID =>
      let video := env.dbVideo.getD zeroVideo
      if video.userID ≠ userID then noEffects 401
      else if env.dbVideo.isNone then noEffects 404
      else if !env.formFileOk then noEffects 500
      else if !(mimeCheckVideo env.mediaType) then noEffects 400
      else
        match getVideoAspect env.probeStreams with
        | .fail => withTemp 500
        | .panicked => { withTemp 0 with panicked := true, status := 0 }
        | .ok aspect =>
          let fileKey := fileKeyFor aspect env.randName env.mediaType
          let rx := processVideoForFastStart env.tempName env.remux
          match rx.res with
          | .error _ => { withTemp 500 with remuxFileRemains := rx.fileRemains }
          | .ok _ =>
            if !env.openOk then { withTemp 500 with remuxFileRemains := true }
            else if !env.putOk then
              { withTemp 500 with
                putCalled := true
                putKey := some fileKey
                remuxFileRemains := true }
            else
              let newURL := env.bucket ++ "," ++ fileKey
              let video2 := { video with videoURL := some newURL, updatedAt := env.now }
              if !env.updateOk then
                { withTemp 500 with
                  putCalled := true
                  putKey := some fileKey
                  updateCalled := true
                  updateArg := some video2
                  remuxFileRemains := true }
              else
                match dbVideoToSignedVideo env.sign video2 with
                | .error _ =>
                  { withTemp 500 with
                    putCalled := true
                    putKey := some fileKey
                    updateCalled := true
                    updateArg := some video2
                    remuxFileRemains := true }
                | .ok _ =>
                  { withTemp 200 with
                    putCalled := true
                    putKey := some fileKey
                    updateCalled := true
                    updateArg := some video2
                    remuxFileRemains := true }

/-- Tail of variant A after the aspect probe: `probeFailed` records that
`respondWithError(500)` was already called without a `return`, so a 500 is
the first status written while execution continues into key derivation, the
S3 put of the staged file, and the metadata update with a direct
`https://bucket.s3.region.amazonaws.com/key` locator.  The update-error
response also lacks a `return`, after which `respondWithJSON(200)` runs. -/
def noRemuxAfterProbe (env : UploadEnv) (video : Video) (aspect : String)
    (probeFailed : Bool) : Outcome :=
  let firstErr : Option Nat := if probeFailed then some 500 else none
  let fileKey := fileKeyFor aspect env.randName env.mediaType
  if !env.putOk then
    { withTemp (firstErr.getD 500) with putCalled := true, putKey := some fileKey }
  else
    let newURL := "https://" ++ env.bucket ++ ".s3." ++ env.region
      ++ ".amazonaws.com/" ++ fileKey
    let video2 := { video with videoURL := some newURL, updatedAt := env.now }
    { withTemp (firstErr.getD (if !env.updateOk then 500 else 200)) with
      putCalled := true
      putKey := some fileKey
      updateCalled := true
      updateArg := some video2 }

/-- Variant A upload handler (`handlerUploadVideo` in
`handler_upload_video.go`): identical to variant B through the media-type
check; no remux, no presign; the aspect-probe error branch calls
`respondWithError` but is missing its `return`, so on probe failure
execution continues with the empty aspect string. -/
def handlerUploadVideoNoRemux (env : UploadEnv) : Outcome :=
  if !env.tokenOk then noEffects 401
  else
    match env.jwtUserID with
    | none => noEffects 401
    | some userID =>
      let video := env.dbVideo.getD zeroVideo
      if video.userID ≠ userID then noEffects 401
      else if env.dbVideo.isNone then noEffects 404
      else if !env.formFileOk then noEffects 500
      else if !(mimeCheckVideo env.mediaType) then noEffects 400
      else
        match getVideoAspect env.probeStreams with
        | .fail => noRemuxAfterProbe env video "" true
        | .panicked => { withTemp 0 with panicked := true, status := 0 }
        | .ok aspect => noRemuxAfterProbe env video aspect false

/-! ### Concrete environments used by the closed theorems and witnesses -/

/-- A fully successful run of variant B: valid owner, `video/mp4`, a probe
that parses but reports no stream (so the class is empty and the key falls
in `other/`), successful remux with non-empty output, successful open, put,
update and presign. -/
def envAllOk : UploadEnv :=
  { tokenOk := true, jwtUserID := some "alice",
    dbVideo := some { userID := "alice", videoURL := none, updatedAt := 0 },
    formFileOk := true, mediaType := "video/mp4", probeStreams := some [],
    randName := "r4nd", tempName := "/tmp/tubely-upload",
    remux := { runOk := true, outExists := true, outSize := 4 },
    openOk := true, putOk := true, updateOk := true,
    sign := fun _ => .ok "signed-url", bucket := "bkt", region := "eu",
    now := 7 }

/-- An authenticated request for an unknown video id: `GetVideo` fails and
the Go `video` variable holds the zero value. -/
def envUnknownVideo : UploadEnv :=
  { envAllOk with dbVideo := none }

/-- A request whose ffprobe invocation fails, every later stage healthy. -/
def envProbeFail : UploadEnv :=
  { envAllOk with probeStreams := none }

/-- A request whose S3 put fails, every earlier stage healthy. -/
def envPutFail : UploadEnv :=
  { envAllOk with putOk := false }

/-- A request by a non-owner: the record's owner differs from the
authenticated principal. -/
def envWrongOwner : UploadEnv :=
  { envAllOk with
    dbVideo := some { userID := "bob", videoURL := none, updatedAt := 0 } }

/-- Remux environment of a successful ffmpeg run with non-empty output. -/
def remuxOkEnv : RemuxEnv := { runOk := true, outExists := true, outSize := 4 }

/-- A presign client that always succeeds, used by the C9 witness. -/
def signOkW : PresignRequest → Except String String :=
  fun r => .ok ("signed:" ++ r.bucket ++ "/" ++ r.key ++ ":" ++ toString r.expireMinutes)

/-- A stored video record with a well-formed composite locator, used by the
C9 witness. -/
def videoW : Video :=
  { userID := "u1", videoURL := some "bkt,landscape/a.mp4", updatedAt := 3 }

/-! ### Basic lemmas about the string utilities -/

theorem splitOnChar_ne_nil (c : Char) (l : List Char) : splitOnChar c l ≠ [] := by
  induction l with
  | nil => simp [splitOnChar]
  | cons x xs ih =>
    simp only [splitOnChar]
    split
    · simp
    · split
      · simp
      · simp

theorem not_mem_splitOnChar (c : Char) (l : List Char) :
    ∀ p ∈ splitOnChar c l, c ∉ p := by
  induction l with
  | nil =>
    intro p hp
    simp [splitOnChar] at hp
    subst hp
    simp
  | cons x xs ih =>
    intro p hp
    simp only [splitOnChar] at hp
    by_cases hx : x = c
    · rw [if_pos hx] at hp
      rcases List.mem_cons.mp hp with h | h
      · subst h; simp
      · exact ih p h
    · rw [if_neg hx] at hp
      rcases hr : splitOnChar c xs with _ | ⟨q, qs⟩
      · exact absurd hr (splitOnChar_ne_nil c xs)
      · rw [hr] at hp
        rcases List.mem_cons.mp hp with h | h
        · subst h
          intro hmem
          rcases List.mem_cons.mp hmem with h' | h'
          · exact hx h'.symm
          · exact ih q (by rw [hr]; exact List.mem_cons_self q qs) h'
        · exact ih p (by rw [hr]; exact List.mem_cons.mpr (Or.inr h))

theorem getLastD_mem {α : Type} (l : List α) (d : α) (h : l ≠ []) :
    l.getLastD d ∈ l := by
  induction l generalizing d with
  | nil => exact absurd rfl h
  | cons x xs ih =>
    cases xs with
    | nil => simp
    | cons y ys =>
      have hmem := ih (d := x) (by simp)
      rw [List.getLastD_cons]
      exact List.mem_cons.mpr (Or.inr hmem)

theorem slash_not_mem_mimeToExt (s : String) : '/' ∉ (mimeToExt s).data := by
  have h1 := splitOnChar_ne_nil '/' s.data
  have h2 := getLastD_mem (splitOnChar '/' s.data) [] h1
  exact not_mem_splitOnChar '/' s.data _ h2

theorem data_append (s t : String) : (s ++ t).data = s.data ++ t.data := by
  cases s; cases t; rfl

theorem count_slash_key (p randName ext : String) (hp : p.data.count '/' = 1)
    (hr : '/' ∉ randName.data) (he : '/' ∉ ext.data) :
    (p ++ randName ++ "." ++ ext).data.count '/' = 1 := by
  rw [data_append, data_append, data_append]
  rw [List.count_append, List.count_append, List.count_append]
  rw [hp, List.count_eq_zero.mpr hr, List.count_eq_zero.mpr he]
  decide

/-! ### Basic lemmas about the gcd loop -/

theorem natAbs_tmod_eq (a b : Int) : (a.tmod b).natAbs = a.natAbs % b.natAbs := by
  cases a <;> cases b <;> simp only [Int.tmod, Int.natAbs_neg] <;> rfl

theorem gcdLoop_eq_gcd_aux :
    ∀ (n : Nat) (a b : Int), b.natAbs ≤ n → 0 ≤ a → 0 ≤ b →
      gcdLoop a b = (Int.gcd a b : Int) := by
  intro n
  induction n with
  | zero =>
    intro a b hle ha _
    have hb0 : b = 0 := Int.natAbs_eq_zero.mp (Nat.le_zero.mp hle)
    subst hb0
    rw [gcdLoop]
    simp [Int.gcd, Int.natAbs_of_nonneg ha]
  | succ n ih =>
    intro a b hle ha hb
    rw [gcdLoop]
    split
    · rename_i h
      subst h
      simp [Int.gcd, Int.natAbs_of_nonneg ha]
    · rename_i h
      have hdec : (a.tmod b).natAbs < b.natAbs := by
        rw [natAbs_tmod_eq]
        exact Nat.mod_lt _ (Int.natAbs_pos.mpr h)
      rw [ih b (a.tmod b) (by omega) hb (Int.tmod_nonneg b ha)]
      have : Int.gcd b (a.tmod b) = Int.gcd a b := by
        unfold Int.gcd
        rw [natAbs_tmod_eq]
        rw [Nat.gcd_comm b.natAbs (a.natAbs % b.natAbs), ← Nat.gcd_rec, Nat.gcd_comm]
      rw [this]

theorem gcdLoop_eq_gcd (a b : Int) (ha : 0 ≤ a) (hb : 0 ≤ b) :
    gcdLoop a b = (Int.gcd a b : Int) :=
  gcdLoop_eq_gcd_aux b.natAbs a b le_rfl ha hb

/-- Trichotomy of the aspect classification for positive dimensions, stated
with the exact 0.02 tolerance of the source. -/
theorem classifyAspect_spec (w h : Int) (hw : 0 < w) (hh : 0 < h) :
    (qabs ((w : ℚ) / (h : ℚ) - 16/9) < 2/100 → classifyAspect w h = some "16:9") ∧
    (¬ qabs ((w : ℚ) / (h : ℚ) - 16/9) < 2/100 →
      qabs ((w : ℚ) / (h : ℚ) - 9/16) < 2/100 → classifyAspect w h = some "9:16") ∧
    (¬ qabs ((w : ℚ) / (h : ℚ) - 16/9) < 2/100 →
      ¬ qabs ((w : ℚ) / (h : ℚ) - 9/16) < 2/100 →
      classifyAspect w h =
        some (toString (w.tdiv (Int.gcd w h)) ++ ":" ++ toString (h.tdiv (Int.gcd w h)))) := by
  refine ⟨?_, ?_, ?_⟩
  · intro h1
    simp [classifyAspect, h1]
  · intro h1 h2
    simp [classifyAspect, h1, h2]
  · intro h1 h2
    have hg := gcdLoop_eq_gcd w h hw.le hh.le
    have hgz : (Int.gcd w h : Int) ≠ 0 := by
      rw [Ne, Int.natCast_eq_zero, Int.gcd_eq_zero_iff]
      rintro ⟨rfl, -⟩
      exact lt_irrefl 0 hw
    simp [classifyAspect, h1, h2, hg, hgz]

theorem getVideoAspect_cons (w h : Int) (rest : List (Int × Int)) :
    getVideoAspect (some ((w, h) :: rest)) =
      match classifyAspect w h with
      | none => AspectOut.panicked
      | some s => AspectOut.ok s := rfl

/-! ### Claim theorems -/

/-- C1: for every width/height pair reported by the probe with at least one
stream (positive dimensions, per the spec's ProbeResult data model), the
classifier returns "16:9" when the ratio is within 0.02 of 16/9, "9:16" when
it is within 0.02 of 9/16 and the 16:9 case does not apply, and otherwise
the reduced integer fraction w/g : h/g with g = gcd(width, height); in
particular 1920x1080 yields "16:9", 1080x1920 yields "9:16" and 1000x500
yields "2:1". -/
theorem c1_aspect_classifier (w h : Int) (rest : List (Int × Int))
    (hw : 0 < w) (hh : 0 < h) :
    (qabs ((w : ℚ) / (h : ℚ) - 16/9) < 2/100 →
      getVideoAspect (some ((w, h) :: rest)) = .ok "16:9") ∧
    (¬ qabs ((w : ℚ) / (h : ℚ) - 16/9) < 2/100 →
      qabs ((w : ℚ) / (h : ℚ) - 9/16) < 2/100 →
      getVideoAspect (some ((w, h) :: rest)) = .ok "9:16") ∧
    (¬ qabs ((w : ℚ) / (h : ℚ) - 16/9) < 2/100 →
      ¬ qabs ((w : ℚ) / (h : ℚ) - 9/16) < 2/100 →
      getVideoAspect (some ((w, h) :: rest)) =
        .ok (toString (w.tdiv (Int.gcd w h)) ++ ":" ++ toString (h.tdiv (Int.gcd w h)))) ∧
    getVideoAspect (some [((1920 : Int), (1080 : Int))]) = .ok "16:9" ∧
    getVideoAspect (some [((1080 : Int), (1920 : Int))]) = .ok "9:16" ∧
    getVideoAspect (some [((1000 : Int), (500 : Int))]) = .ok "2:1" := by
  obtain ⟨hA, hB, hC⟩ := classifyAspect_spec w h hw hh
  refine ⟨?_, ?_, ?_, ?_, ?_, ?_⟩
  · intro h1
    rw [getVideoAspect_cons, hA h1]
  · intro h1 h2
    rw [getVideoAspect_cons, hB h1 h2]
  · intro h1 h2
    rw [getVideoAspect_cons, hC h1 h2]
  · have hcond : qabs (((1920 : Int) : ℚ) / ((1080 : Int) : ℚ) - 16/9) < 2/100 := by
      norm_num [qabs]
    have hres := (classifyAspect_spec 1920 1080 (by norm_num) (by norm_num)).1 hcond
    rw [getVideoAspect_cons, hres]
  · have hc1 : ¬ qabs (((1080 : Int) : ℚ) / ((1920 : Int) : ℚ) - 16/9) < 2/100 := by
      norm_num [qabs]
    have hc2 : qabs (((1080 : Int) : ℚ) / ((1920 : Int) : ℚ) - 9/16) < 2/100 := by
      norm_num [qabs]
    have hres := (classifyAspect_spec 1080 1920 (by norm_num) (by norm_num)).2.1 hc1 hc2
    rw [getVideoAspect_cons, hres]
  · have hc1 : ¬ qabs (((1000 : Int) : ℚ) / ((500 : Int) : ℚ) - 16/9) < 2/100 := by
      norm_num [qabs]
    have hc2 : ¬ qabs (((1000 : Int) : ℚ) / ((500 : Int) : ℚ) - 9/16) < 2/100 := by
      norm_num [qabs]
    have hres := (classifyAspect_spec 1000 500 (by norm_num) (by norm_num)).2.2 hc1 hc2
    have hstr : (toString ((1000 : Int).tdiv (Int.gcd 1000 500)) ++ ":" ++
        toString ((500 : Int).tdiv (Int.gcd 1000 500))) = "2:1" := by decide
    rw [hstr] at hres
    rw [getVideoAspect_cons, hres]

/-- Witness for C1: the classifier applied to the concrete probe result
1000x500 yields the reduced fraction "2:1". -/
theorem c1_witness : getVideoAspect (some [((1000 : Int), (500 : Int))]) = .ok "2:1" :=
  (c1_aspect_classifier 1000 500 [] (by decide) (by decide)).2.2.2.2.2

/-- C10: when the first reported stream has width 0 and height 0 the
classifier reaches the Go integer division by zero (the gcd loop returns 0,
which is then used as a divisor; modelled as `none`/`panicked`), while for
every other pair of non-negative dimensions the classifier is total. -/
theorem c10_zero_dims_panic (w h : Int) (hw : 0 ≤ w) (hh : 0 ≤ h) :
    (gcdLoop 0 0 = 0 ∧ classifyAspect 0 0 = none ∧
      getVideoAspect (some [((0 : Int), (0 : Int))]) = .panicked) ∧
    (¬(w = 0 ∧ h = 0) → (classifyAspect w h).isSome = true) := by
  constructor
  · have hgl : gcdLoop (0 : Int) (0 : Int) = 0 := by
      rw [gcdLoop]
      simp
    have hc1 : ¬ qabs (((0 : Int) : ℚ) / ((0 : Int) : ℚ) - 16/9) < 2/100 := by
      norm_num [qabs]
    have hc2 : ¬ qabs (((0 : Int) : ℚ) / ((0 : Int) : ℚ) - 9/16) < 2/100 := by
      norm_num [qabs]
    have hcl : classifyAspect 0 0 = none := by
      simp only [classifyAspect]
      rw [if_neg hc1, if_neg hc2, hgl]
      simp
    refine ⟨hgl, hcl, ?_⟩
    rw [getVideoAspect_cons, hcl]
  · intro hne
    by_cases c1 : qabs ((w : ℚ) / (h : ℚ) - 16/9) < 2/100
    · simp [classifyAspect, c1]
    · by_cases c2 : qabs ((w : ℚ) / (h : ℚ) - 9/16) < 2/100
      · simp [classifyAspect, c1, c2]
      · have hg := gcdLoop_eq_gcd w h hw hh
        have hgz : (Int.gcd w h : Int) ≠ 0 := by
          rw [Ne, Int.natCast_eq_zero, Int.gcd_eq_zero_iff]
          exact hne
        simp [classifyAspect, c1, c2, hg, hgz]

/-- Witness for C10: the classifier is defined (returns a class) at the
concrete non-zero dimensions 3x5. -/
theorem c10_witness : (classifyAspect 3 5).isSome = true :=
  (c10_zero_dims_panic 3 5 (by decide) (by decide)).2 (by decide)

/-- C8: the remux step returns an error exactly when the external process
run fails, or no output file exists at the work path afterwards, or the
produced output has zero length; a zero-length output is failure, and on
success the path of the non-empty output file (the work path
`filePath + ".processing"`) is returned, the file left in place. -/
theorem c8_remux_contract (filePath : String) (env : RemuxEnv) :
    ((processVideoForFastStart filePath env).res = .ok (filePath ++ ".processing") ↔
      env.runOk = true ∧ env.outExists = true ∧ env.outSize ≠ 0) ∧
    ((∃ e, (processVideoForFastStart filePath env).res = .error e) ↔
      (env.runOk = false ∨ env.outExists = false ∨ env.outSize = 0)) ∧
    (env.runOk = true → env.outExists = true → env.outSize ≠ 0 →
      (processVideoForFastStart filePath env).fileRemains = true ∧ 0 < env.outSize) := by
  obtain ⟨r, e, s⟩ := env
  cases r <;> cases e <;> by_cases hs : s = 0 <;>
    simp_all [processVideoForFastStart] <;> omega

/-- Witness for C8: a successful run with a 4-byte output returns the work
path and leaves the file for the caller. -/
theorem c8_witness :
    (processVideoForFastStart "stage" remuxOkEnv).res = .ok ("stage" ++ ".processing") ∧
    (processVideoForFastStart "stage" remuxOkEnv).fileRemains = true :=
  ⟨(c8_remux_contract "stage" remuxOkEnv).1.mpr ⟨rfl, rfl, by decide⟩,
    ((c8_remux_contract "stage" remuxOkEnv).2.2 rfl rfl (by decide)).1⟩

/-- C9: the read accessor fails with the locator-format error unless the
persisted locator splits on "," into exactly two components; when it splits
into bucket and key the accessor issues exactly one presign request with a
validity window of 15 minutes and only replaces the URL field of the
returned copy (owner and timestamp unchanged, nothing written back). -/
theorem c9_signed_video_contract (sign : PresignRequest → Except String String)
    (v : Video) (u : String) (hu : v.videoURL = some u) :
    ((strSplitOn ',' u).length ≠ 2 →
      dbVideoToSignedVideo sign v = .error "invalid video URL format") ∧
    (∀ b k, strSplitOn ',' u = [b, k] →
      dbVideoToSignedVideo sign v =
        (sign { bucket := b, key := k, expireMinutes := 15 }).map
          (fun p => { v with videoURL := some p }) ∧
      (∀ p, sign { bucket := b, key := k, expireMinutes := 15 } = .ok p →
        dbVideoToSignedVideo sign v =
          .ok { userID := v.userID, videoURL := some p, updatedAt := v.updatedAt })) := by
  obtain ⟨vid, vurl, vup⟩ := v
  simp only at hu
  subst hu
  constructor
  · intro hlen
    rcases hsp : strSplitOn ',' u with _ | ⟨b, tl⟩
    · simp [dbVideoToSignedVideo, hsp]
    · rcases tl with _ | ⟨k, tl2⟩
      · simp [dbVideoToSignedVideo, hsp]
      · rcases tl2 with _ | ⟨x, tl3⟩
        · exact absurd (by rw [hsp]; rfl) hlen
        · simp [dbVideoToSignedVideo, hsp]
  · intro b k hsp
    constructor
    · rcases hsg : sign { bucket := b, key := k, expireMinutes := 15 } with e | p <;>
        simp [dbVideoToSignedVideo, generatePresignedURL, hsp, hsg, Except.map]
    · intro p hp
      simp [dbVideoToSignedVideo, generatePresignedURL, hsp, hp]

/-- Witness for C9: the concrete record `videoW` with locator
"bkt,landscape/a.mp4" is signed with a 15-minute expiry and an otherwise
unchanged record. -/
theorem c9_witness :
    dbVideoToSignedVideo signOkW videoW =
      .ok { userID := "u1", videoURL := some "signed:bkt/landscape/a.mp4:15",
            updatedAt := 3 } :=
  ((c9_signed_video_contract signOkW videoW "bkt,landscape/a.mp4" rfl).2
    "bkt" "landscape/a.mp4" (by decide)).2 "signed:bkt/landscape/a.mp4:15" rfl

/-- C6 counterexample: the declared media type "video/mp4;v=1" passes the
validator (Go `mime.ParseMediaType` accepts it with canonical type
"video/mp4", whose subtype portion is "mp4"), yet the derived key's
extension is the raw tail "mp4;v=1", not the subtype "mp4". -/
theorem c6_counterexample :
    mimeCheckVideo "video/mp4;v=1" = true ∧
    parseMediaTypeBase "video/mp4;v=1" = some "video/mp4" ∧
    mimeToExt "video/mp4;v=1" = "mp4;v=1" ∧
    fileKeyFor "16:9" "tok" "video/mp4;v=1" = "landscape/tok.mp4;v=1" ∧
    mimeToExt "video/mp4;v=1" ≠ "mp4" := by
  refine ⟨by decide, by decide, by decide, by decide, by decide⟩

/-- C6 amended: for every accepted declared media type and aspect class,
with the random token drawn from the slash-free base64url alphabet, the
derived key contains exactly one "/", its front part is "landscape" for
"16:9", "portrait" for "9:16" and "other" for anything else, and its
extension is the portion of the raw declared media-type string after the
last "/" (`mimeToExt`) — which coincides with the declared subtype exactly
for bare type/subtype values such as "video/mp4", where it is "mp4". -/
theorem c6_key_shape (mediaType randName aspect : String)
    (hacc : mimeCheckVideo mediaType = true) (hr : '/' ∉ randName.data) :
    (fileKeyFor aspect randName mediaType).data.count '/' = 1 ∧
    (aspect = "16:9" →
      fileKeyFor aspect randName mediaType =
        "landscape/" ++ randName ++ "." ++ mimeToExt mediaType) ∧
    (aspect = "9:16" →
      fileKeyFor aspect randName mediaType =
        "portrait/" ++ randName ++ "." ++ mimeToExt mediaType) ∧
    (aspect ≠ "16:9" → aspect ≠ "9:16" →
      fileKeyFor aspect randName mediaType =
        "other/" ++ randName ++ "." ++ mimeToExt mediaType) ∧
    mimeToExt "video/mp4" = "mp4" := by
  have hext := slash_not_mem_mimeToExt mediaType
  refine ⟨?_, ?_, ?_, ?_, by decide⟩
  · by_cases h1 : aspect = "16:9"
    · subst h1
      exact count_slash_key "landscape/" randName (mimeToExt mediaType)
        (by decide) hr hext
    · by_cases h2 : aspect = "9:16"
      · subst h2
        exact count_slash_key "portrait/" randName (mimeToExt mediaType)
          (by decide) hr hext
      · have hk : fileKeyFor aspect randName mediaType =
            "other/" ++ randName ++ "." ++ mimeToExt mediaType := by
          simp [fileKeyFor, h1, h2]
        rw [hk]
        exact count_slash_key "other/" randName (mimeToExt mediaType)
          (by decide) hr hext
  · intro h1
    subst h1
    rfl
  · intro h2
    subst h2
    rfl
  · intro h1 h2
    simp [fileKeyFor, h1, h2]

/-- Witness for the amended C6: a concrete accepted upload with media type
"video/mp4", token "AbC123" and class "16:9". -/
theorem c6_witness :
    (fileKeyFor "16:9" "AbC123" "video/mp4").data.count '/' = 1 ∧
    fileKeyFor "16:9" "AbC123" "video/mp4" =
      "landscape/" ++ "AbC123" ++ "." ++ mimeToExt "video/mp4" := by
  have h := c6_key_shape "video/mp4" "AbC123" "16:9" (by decide) (by decide)
  exact ⟨h.1, h.2.1 rfl⟩

/-- C7: a request whose authenticated principal differs from the owner
recorded in the target video's record is rejected with 401 before the
temporary file is created and before any object-store or metadata side
effect. -/
theorem c7_owner_mismatch_aborts (env : UploadEnv) (u : String) (v : Video)
    (hjwt : env.jwtUserID = some u) (hdb : env.dbVideo = some v)
    (hne : v.userID ≠ u) :
    (handlerUploadVideo env).status = 401 ∧
    (handlerUploadVideo env).tempCreated = false ∧
    (handlerUploadVideo env).putCalled = false ∧
    (handlerUploadVideo env).updateCalled = false := by
  have hrun : handlerUploadVideo env = noEffects 401 := by
    unfold handlerUploadVideo
    rw [hjwt, hdb]
    cases htok : env.tokenOk <;> simp [hne]
  rw [hrun]
  exact ⟨rfl, rfl, rfl, rfl⟩

/-- Witness for C7: a concrete request by "alice" against a record owned by
"bob". -/
theorem c7_witness :
    (handlerUploadVideo envWrongOwner).status = 401 ∧
    (handlerUploadVideo envWrongOwner).tempCreated = false ∧
    (handlerUploadVideo envWrongOwner).putCalled = false ∧
    (handlerUploadVideo envWrongOwner).updateCalled = false :=
  c7_owner_mismatch_aborts envWrongOwner "alice"
    { userID := "bob", videoURL := none, updatedAt := 0 } rfl rfl (by decide)

/-- C5: the metadata update runs only after a successful object-store put;
when the put fails the handler answers 500 and the update is never
invoked. -/
theorem c5_update_only_after_put (env : UploadEnv) :
    ((handlerUploadVideo env).updateCalled = true →
      env.putOk = true ∧ (handlerUploadVideo env).putCalled = true) ∧
    (env.putOk = false →
      (handlerUploadVideo env).updateCalled = false ∧
      ((handlerUploadVideo env).putCalled = true →
        (handlerUploadVideo env).status = 500)) := by
  simp only [handlerUploadVideo]
  repeat' split
  all_goals simp_all [withTemp, noEffects]

/-- Witness for C5: a concrete run whose put fails performs no metadata
update and answers 500. -/
theorem c5_witness :
    (handlerUploadVideo envPutFail).updateCalled = false ∧
    (handlerUploadVideo envPutFail).status = 500 :=
  ⟨((c5_update_only_after_put envPutFail).2 rfl).1,
    ((c5_update_only_after_put envPutFail).2 rfl).2 (by decide)⟩

/-- Variant B stops at a probe failure: the request ends with 500, the
staged temp file is removed, and neither the put nor the update happens
(the behaviour C3 asserts; the violation is in variant A, see
`c3_probe_failure_still_publishes`). -/
theorem probe_failure_stops_variantB :
    handlerUploadVideo envProbeFail = withTemp 500 := rfl

/-- C3 (code bug in variant A): after a probe failure the handler in
`handler_upload_video.go` writes the 500 response but, missing a `return`,
still performs the object-store put and the metadata update. -/
theorem c3_probe_failure_still_publishes :
    (handlerUploadVideoNoRemux envProbeFail).status = 500 ∧
    (handlerUploadVideoNoRemux envProbeFail).putCalled = true ∧
    (handlerUploadVideoNoRemux envProbeFail).updateCalled = true := by
  refine ⟨by decide, by decide, by decide⟩

/-- C2 (code bug): an authenticated request for an unknown video id gets
401 ("not video owner") because the owner comparison against the zero-value
record precedes the lookup-error check; the claim's 404 is unreachable for
any principal other than the zero-value owner. -/
theorem c2_unknown_video_responds_unauthorized :
    (handlerUploadVideo envUnknownVideo).status = 401 ∧
    (handlerUploadVideo envUnknownVideo).status ≠ 404 := by
  refine ⟨by decide, by decide⟩

/-- C4 (code bug): a fully successful pipeline run removes the staged temp
file but leaves the remuxed work file on disk — the handler never removes
the `.processing` file returned by `processVideoForFastStart`. -/
theorem c4_success_leaves_remux_file :
    (handlerUploadVideo envAllOk).status = 200 ∧
    (handlerUploadVideo envAllOk).tempRemoved = true ∧
    (handlerUploadVideo envAllOk).remuxFileRemains = true := by
  refine ⟨by decide, by decide, by decide⟩

end Tubely
